import Mathlib

/-!
Shallow embedding of the OneKey ClientNode (`client-node.ts`).

The embedding models the Express request/response mechanics needed by the
handlers: a response can be written at most once; writing again raises a
headers-already-sent error; `res.status` only sets the status used by a
*later* write.  Handlers run in a state-plus-exception monad in which an
uncaught exception carries the response state along (as in JavaScript,
where a `try`/`catch` does not roll back effects).

External collaborators of the handlers (the OperatorClient, the request
builders, `JSON.parse`, `new URL`, `fromDataToObject`) are not part of the
embedded file; they are passed in as a record of functions
(`ClientExternals`).  Concrete spec-modelled instances are provided for
closed evaluations.
-/

/-! ## Data model -/

structure URL where
  href : String
deriving DecidableEq, Repr

def URL.toString (u : URL) : String := u.href

/-- Opaque identifiers-and-preferences payload (`IdsAndPreferences`). -/
structure IdsAndPreferences where
  raw : String
deriving DecidableEq, Repr

/-- Opaque signed message produced by a request builder. -/
structure SignedMsg where
  raw : String
deriving DecidableEq, Repr

/-- REST signing context: the caller's Origin header (`{ origin: req.header('origin') }`). -/
structure RestContext where
  origin : Option String
deriving DecidableEq, Repr

/-- Redirect signing context: `{ returnUrl: returnUrl.toString(), referer: req.header('referer') }`. -/
structure RedirectContext where
  returnUrl : String
  referer : Option String
deriving DecidableEq, Repr

/-- Opaque operator read response (`GetIdsPrefsResponse`). -/
structure GetIdsPrefsResponse where
  raw : String
deriving DecidableEq, Repr

/-- The operator's own error envelope payload: `{ error: { message } }`. -/
structure OperatorErrorPayload where
  message : String
deriving DecidableEq, Repr

/-- `RedirectGetIdsPrefsResponse`: either a `response` or an `error` field (or neither). -/
structure RedirectGetIdsPrefsResponse where
  response : Option GetIdsPrefsResponse
  error : Option OperatorErrorPayload
deriving DecidableEq, Repr

/-- Opaque seed data blob. -/
structure SeedData where
  raw : String
deriving DecidableEq, Repr

/-- `PostSeedRequest`: body of the create-seed endpoint. -/
structure PostSeedRequest where
  transaction_ids : List String
  data : SeedData
deriving DecidableEq, Repr

/-- A Seed: one signed audit hop over a set of transaction identifiers. -/
structure Seed where
  transactionIds : List String
  data : SeedData
  timestamp : Nat
  signerHost : String
  signature : String
deriving DecidableEq, Repr

/-- Error taxonomy used in 400 bodies: `ClientNodeErrorType.UNKNOWN_ERROR`,
`ClientNodeErrorType.VERIFICATION_FAILED`, `OperatorErrorType.UNKNOWN_ERROR`. -/
inductive ErrorType
  | clientUnknown
  | clientVerificationFailed
  | operatorUnknown
deriving DecidableEq, Repr

/-- The two-field error body `{ type, details }` (`ClientNodeError` / `OperatorError`). -/
structure NodeError where
  type : ErrorType
  details : String
deriving DecidableEq, Repr

/-- The body a handler writes to the HTTP response. -/
inductive Body
  | text (s : String)
  | statusText (code : Nat)
  | errorJson (e : NodeError)
  | proxyPostResponse (payload : SignedMsg) (url : String)
  | idsPrefsResponse (r : GetIdsPrefsResponse)
  | seedJson (seed : Seed)
deriving DecidableEq, Repr

/-- Whether a body is the two-field `{ type, details }` JSON error object. -/
def Body.isErrorJson : Body → Bool
  | .errorJson _ => true
  | _ => false

/-- Exceptions a handler can raise. -/
inductive Exn
  | headersSent
  | typeError
  | urlParse
  | jsonParse
  | extFailure
deriving DecidableEq, Repr

/-- An inbound Express request, restricted to the pieces the handlers read. -/
structure Request where
  query : List (String × String) := []
  originHeader : Option String := none
  refererHeader : Option String := none
  body : String := ""
deriving DecidableEq, Repr

/-- Express response state: the status `res.status` would use next, and the
single (status, body) pair actually sent to the client, if any. -/
structure Resp where
  statusCode : Nat := 200
  sent : Option (Nat × Body) := none
deriving DecidableEq, Repr

def Resp.init : Resp := {}

/-! ## Handler monad (state + JS-style exceptions) -/

/-- Result of running a handler: normal return, or an uncaught exception.
The response state is carried along in both cases. -/
inductive HResult (α : Type) where
  | ok (a : α) (s : Resp)
  | thrown (e : Exn) (s : Resp)
deriving DecidableEq, Repr

def HandlerM (α : Type) : Type := Resp → HResult α

def hpure {α : Type} (a : α) : HandlerM α := fun s => .ok a s

def hthrow {α : Type} (e : Exn) : HandlerM α := fun s => .thrown e s

def hseq {α β : Type} (m : HandlerM α) (f : α → HandlerM β) : HandlerM β := fun s =>
  match m s with
  | .ok a s2 => f a s2
  | .thrown e s2 => .thrown e s2

/-- JavaScript `try { body } catch (e) { h }`: effects performed before the
throw are kept (no state rollback). -/
def tryCatchJS {α : Type} (body : HandlerM α) (h : Exn → HandlerM α) : HandlerM α := fun s =>
  match body s with
  | .ok a s2 => .ok a s2
  | .thrown e s2 => h e s2

/-- Lift a call to an external function that may throw. -/
def liftE {α : Type} (x : Except Exn α) : HandlerM α := fun s =>
  match x with
  | .ok a => .ok a s
  | .error e => .thrown e s

/-- `res.status(c)`: record the status for a later send. -/
def setStatus (c : Nat) : HandlerM Unit := fun s =>
  .ok () { s with statusCode := c }

/-- `res.json(b)`: throws ERR_HTTP_HEADERS_SENT if a response was already sent. -/
def sendJson (b : Body) : HandlerM Unit := fun s =>
  match s.sent with
  | some _ => .thrown .headersSent s
  | none => .ok () { s with sent := some (s.statusCode, b) }

/-- `res.send(t)` with a string body. -/
def sendText (t : String) : HandlerM Unit := fun s =>
  match s.sent with
  | some _ => .thrown .headersSent s
  | none => .ok () { s with sent := some (s.statusCode, Body.text t) }

/-- `res.sendStatus(c)`: set the status and send its status text as body. -/
def sendStatus (c : Nat) : HandlerM Unit := fun s =>
  match s.sent with
  | some _ => .thrown .headersSent { s with statusCode := c }
  | none => .ok () { statusCode := c, sent := some (c, Body.statusText c) }

/-! ## Observations on a finished handler run -/

def runH {α : Type} (h : HandlerM α) : HResult α := h Resp.init

/-- The (status, body) pair the client observes after the handler ran. -/
def clientResponse (h : HandlerM Unit) : Option (Nat × Body) :=
  match runH h with
  | .ok _ s => s.sent
  | .thrown _ s => s.sent

/-- The status code the client observes, if any response was sent. -/
def clientStatus (h : HandlerM Unit) : Option Nat :=
  (clientResponse h).map Prod.fst

/-- The exception escaping the handler, if it did not return normally. -/
def escapedExn (h : HandlerM Unit) : Option Exn :=
  match runH h with
  | .ok _ _ => none
  | .thrown e _ => some e

/-! ## External collaborators of the handlers

The OperatorClient, the request builders, `getPayload`, `fromDataToObject`,
and the JavaScript built-ins `new URL` and `JSON.parse` are outside the
embedded file; the handlers are parameterized over them. -/

structure ClientExternals where
  /-- `new URL(s)`: parse an absolute URL or throw. -/
  parseURL : String → Except Exn URL
  /-- `JSON.parse(s) as IdsAndPreferences` (used by `getMessageObject`). -/
  jsonParseIdsPrefs : String → Except Exn IdsAndPreferences
  /-- `getPayload<IdsAndPreferences>(req)` from the express helpers. -/
  getPayload : Request → Except Exn IdsAndPreferences
  /-- `OperatorClient.getReadRedirectUrl(req, returnUrl)`. -/
  getReadRedirectUrl : Request → Option URL → Except Exn URL
  /-- `OperatorClient.getDeleteRedirectUrl(req, returnUrl)`. -/
  getDeleteRedirectUrl : Request → Option URL → Except Exn URL
  /-- `PostIdsPrefsRequestBuilder.buildRestRequest(context, payload)`. -/
  buildRestRequest : RestContext → IdsAndPreferences → Except Exn SignedMsg
  /-- `PostIdsPrefsRequestBuilder.getRestUrl()`. -/
  getRestUrl : URL
  /-- `PostIdsPrefsRequestBuilder.buildRedirectRequest(context, payload)`. -/
  buildRedirectRequest : RedirectContext → IdsAndPreferences → Except Exn SignedMsg
  /-- `PostIdsPrefsRequestBuilder.getRedirectUrl(signedMessage)`. -/
  getRedirectUrl : SignedMsg → Except Exn URL
  /-- `fromDataToObject<RedirectGetIdsPrefsResponse>(req.body)`. -/
  fromDataToObject : String → RedirectGetIdsPrefsResponse
  /-- `OperatorClient.verifyReadResponse(response)`. -/
  verifyReadResponse : GetIdsPrefsResponse → Except Exn Bool
  /-- `JSON.parse(req.body) as PostSeedRequest` (used by `createSeed`). -/
  parseSeedRequest : String → Except Exn PostSeedRequest
  /-- `OperatorClient.buildSeed(transactionIds, data)`. -/
  buildSeed : List String → SeedData → Except Exn Seed

/-- Query parameter names (`proxyUriParams` from the endpoints module). -/
def proxyUriParamsReturnUrl : String := "returnUrl"

def proxyUriParamsMessage : String := "message"

/-! ## The helper functions of client-node.ts -/

/-- `getMandatoryQueryStringParam(req, res, paramName)`: read the query value;
if it is `undefined`, `res.sendStatus(400)` and return `undefined`. -/
def getMandatoryQueryStringParam (req : Request) (paramName : String) :
    HandlerM (Option String) :=
  match req.query.lookup paramName with
  | none => hseq (sendStatus 400) (fun _ => hpure none)
  | some v => hpure (some v)

/-- `getReturnUrl(req, res)`: mandatory `returnUrl` param; when truthy
(present and non-empty), `new URL(redirectStr)` — which may throw outside
any try/catch — otherwise `undefined`. -/
def getReturnUrl (env : ClientExternals) (req : Request) : HandlerM (Option URL) :=
  hseq (getMandatoryQueryStringParam req proxyUriParamsReturnUrl) (fun redirectStr =>
    match redirectStr with
    | some s =>
      if s = "" then hpure none
      else
        match env.parseURL s with
        | .ok u => hpure (some u)
        | .error e => hthrow e
    | none => hpure none)

/-- `getMessageObject(req, res)`: mandatory `message` param; when truthy,
`JSON.parse(requestStr)` — which may throw outside any try/catch —
otherwise `undefined`. -/
def getMessageObject (env : ClientExternals) (req : Request) :
    HandlerM (Option IdsAndPreferences) :=
  hseq (getMandatoryQueryStringParam req proxyUriParamsMessage) (fun requestStr =>
    match requestStr with
    | some s =>
      if s = "" then hpure none
      else
        match env.jsonParseIdsPrefs s with
        | .ok v => hpure (some v)
        | .error e => hthrow e
    | none => hpure none)

/-! ## The ClientNode handlers -/

namespace ClientNode

/-- `restWriteIdsAndPrefs`: sign the posted payload bound to the caller's
Origin header and answer with `{ payload, url }`. -/
def restWriteIdsAndPrefs (env : ClientExternals) (req : Request) : HandlerM Unit :=
  tryCatchJS
    (hseq (liftE (env.getPayload req)) (fun unsignedRequest =>
     hseq (liftE (env.buildRestRequest { origin := req.originHeader } unsignedRequest))
       (fun signedPayload =>
        sendJson (Body.proxyPostResponse signedPayload (env.getRestUrl.toString)))))
    (fun _e =>
      hseq (setStatus 400) (fun _ =>
        sendJson (Body.errorJson { type := .clientUnknown, details := "" })))

/-- `redirectReadIdsAndPrefs`: `getReturnUrl` runs before the try block; the
try block asks the OperatorClient for the redirect URL and sends it. -/
def redirectReadIdsAndPrefs (env : ClientExternals) (req : Request) : HandlerM Unit :=
  hseq (getReturnUrl env req) (fun returnUrl =>
    tryCatchJS
      (hseq (liftE (env.getReadRedirectUrl req returnUrl)) (fun url =>
        sendText url.toString))
      (fun _e =>
        hseq (setStatus 400) (fun _ =>
          sendJson (Body.errorJson { type := .clientUnknown, details := "" }))))

/-- `redirectWriteIdsAndPrefs`: `getReturnUrl` and `getMessageObject` run
before the try block; only when the message parsed truthy does the guarded
try block run, building the redirect request from
`{ returnUrl: returnUrl.toString(), referer: req.header('referer') }`. -/
def redirectWriteIdsAndPrefs (env : ClientExternals) (req : Request) : HandlerM Unit :=
  hseq (getReturnUrl env req) (fun returnUrl =>
  hseq (getMessageObject env req) (fun input =>
    match input with
    | some input =>
      tryCatchJS
        (hseq (match returnUrl with
               | none => hthrow Exn.typeError
               | some u => hpure u.toString) (fun returnUrlStr =>
         hseq (liftE (env.buildRedirectRequest
                { returnUrl := returnUrlStr, referer := req.refererHeader } input))
           (fun postIdsPrefsRequestJson =>
            hseq (liftE (env.getRedirectUrl postIdsPrefsRequestJson)) (fun url =>
              sendText url.toString))))
        (fun _e =>
          hseq (setStatus 400) (fun _ =>
            sendJson (Body.errorJson { type := .clientUnknown, details := "" })))
    | none => hpure ()))

/-- `redirectDeleteIdsAndPrefs`: same shape as the redirect read handler. -/
def redirectDeleteIdsAndPrefs (env : ClientExternals) (req : Request) : HandlerM Unit :=
  hseq (getReturnUrl env req) (fun returnUrl =>
    tryCatchJS
      (hseq (liftE (env.getDeleteRedirectUrl req returnUrl)) (fun url =>
        sendText url.toString))
      (fun _e =>
        hseq (setStatus 400) (fun _ =>
          sendJson (Body.errorJson { type := .clientUnknown, details := "" }))))

/-- `verifyOperatorReadResponse`: when the parsed body has no `response`,
read `message.error.message` (a TypeError when `error` is also absent —
outside any try/catch) and answer 400 with an `OperatorError`; otherwise
verify the signature inside the try block. -/
def verifyOperatorReadResponse (env : ClientExternals) (req : Request) : HandlerM Unit :=
  match (env.fromDataToObject req.body).response with
  | none =>
    (match (env.fromDataToObject req.body).error with
     | none => hthrow Exn.typeError
     | some opErr =>
       hseq (setStatus 400) (fun _ =>
         sendJson (Body.errorJson { type := .operatorUnknown, details := opErr.message })))
  | some response =>
    tryCatchJS
      (hseq (liftE (env.verifyReadResponse response)) (fun verification =>
        if verification = false then
          hseq (setStatus 400) (fun _ =>
            sendJson (Body.errorJson { type := .clientVerificationFailed, details := "" }))
        else
          sendJson (Body.idsPrefsResponse response)))
      (fun _e =>
        hseq (setStatus 400) (fun _ =>
          sendJson (Body.errorJson { type := .clientUnknown, details := "" })))

/-- `createSeed`: parse the posted `PostSeedRequest` and answer with the
Seed built by the OperatorClient. -/
def createSeed (env : ClientExternals) (req : Request) : HandlerM Unit :=
  tryCatchJS
    (hseq (liftE (env.parseSeedRequest req.body)) (fun request =>
     hseq (liftE (env.buildSeed request.transaction_ids request.data)) (fun seed =>
       sendJson (Body.seedJson seed))))
    (fun _e =>
      hseq (setStatus 400) (fun _ =>
        sendJson (Body.errorJson { type := .clientUnknown, details := "" })))

end ClientNode

/-! ## Spec-modelled external implementations

These supply concrete values for closed evaluations (witnesses and
counterexamples).  Each models repository code that is not under the
embedded file, or a JavaScript built-in, following the spec's words. -/

/-- Structural prefix test on strings (kernel-reducible). -/
def strBeginsWith (p s : String) : Bool := p.data.isPrefixOf s.data

/-- Structural character drop on strings (kernel-reducible). -/
def strDropChars (n : Nat) (s : String) : String := String.mk (s.data.drop n)

/-- Split a character list on commas (structural recursion). -/
def splitCharsOnComma : List Char → List Char → List String
  | [], acc => [String.mk acc.reverse]
  | c :: cs, acc =>
    if c = ',' then String.mk acc.reverse :: splitCharsOnComma cs []
    else splitCharsOnComma cs (c :: acc)

/-- Split a string on commas (structural recursion). -/
def splitOnComma (s : String) : List String := splitCharsOnComma s.data []

/-- Join strings with commas (structural recursion). -/
def strJoinComma : List String → String
  | [] => ""
  | [x] => x
  | x :: xs => x ++ "," ++ strJoinComma xs

/-- Modelled from the spec: the WHATWG `new URL(s)` built-in used by
`getReturnUrl`; `returnUrl` is documented as an absolute URL, and the
constructor throws on a string that does not parse as one. -/
def parseURLModel (s : String) : Except Exn URL :=
  if strBeginsWith "https://" s || strBeginsWith "http://" s then .ok { href := s }
  else .error .urlParse

/-- Modelled from the spec: the `JSON.parse` built-in applied to the
`message` query value, documented as a URL-encoded signed JSON payload;
parsing throws on input that is not JSON. -/
def jsonParseIdsPrefsModel (s : String) : Except Exn IdsAndPreferences :=
  if strBeginsWith "\x7b" s then .ok { raw := s } else .error .jsonParse

/-- Modelled from the spec: `getPayload` of the express helpers, which
returns the request body parsed as the operation's payload type. -/
def getPayloadModel (req : Request) : Except Exn IdsAndPreferences :=
  jsonParseIdsPrefsModel req.body

namespace OperatorClient

/-- Modelled from the spec: `OperatorClient.getReadRedirectUrl` (not under
the embedded file) builds the signed redirect request bound to the return
destination and referer, and encodes it in the operator's redirect-read URL
together with the `returnUrl` parameter. -/
def getReadRedirectUrl (operatorHost : String) (req : Request) (returnUrl : Option URL) :
    Except Exn URL :=
  match returnUrl with
  | some u =>
    .ok { href := "https://" ++ operatorHost ++ "/paf/v1/redirect/get-ids-prefs?returnUrl="
            ++ u.toString ++ "&referer=" ++ (req.refererHeader.getD "") }
  | none => .error .typeError

/-- Modelled from the spec: `OperatorClient.getDeleteRedirectUrl`, the
delete counterpart of `getReadRedirectUrl`. -/
def getDeleteRedirectUrl (operatorHost : String) (req : Request) (returnUrl : Option URL) :
    Except Exn URL :=
  match returnUrl with
  | some u =>
    .ok { href := "https://" ++ operatorHost ++ "/paf/v1/redirect/delete-ids-prefs?returnUrl="
            ++ u.toString ++ "&referer=" ++ (req.refererHeader.getD "") }
  | none => .error .typeError

/-- Modelled from the spec: the Seed canonicalization input — ordered
transaction-id list, the opaque data, and the timestamp. -/
structure SeedCanonical where
  transactionIds : List String
  data : SeedData
  timestamp : Nat
deriving DecidableEq, Repr

/-- Modelled from the spec: `OperatorClient.buildSeed(transactionIds, data)`
canonicalizes `(transactionIds, data, now())` via the Seed definition, signs
with the caller's current signing key, and returns the signed hop. -/
def buildSeed (transactionIds : List String) (data : SeedData) (now : Nat)
    (signerHost : String) (sign : SeedCanonical → String) : Seed :=
  { transactionIds := transactionIds
    data := data
    timestamp := now
    signerHost := signerHost
    signature := sign { transactionIds := transactionIds, data := data, timestamp := now } }

end OperatorClient

/-- Modelled from the spec: `fromDataToObject` of the query-string module
restructures the posted data into the operator response envelope, which is
either `{ response: T }` or `{ error: { message } }` (or carries neither
field when the posted data has neither). -/
def fromDataToObjectModel (body : String) : RedirectGetIdsPrefsResponse :=
  if strBeginsWith "response:" body then
    { response := some { raw := strDropChars 9 body }, error := none }
  else if strBeginsWith "error:" body then
    { response := none, error := some { message := strDropChars 6 body } }
  else
    { response := none, error := none }

/-- Modelled from the spec: a stand-in signature over the Seed canonical
content. -/
def signModel (canonical : OperatorClient.SeedCanonical) : String :=
  "sig(" ++ strJoinComma canonical.transactionIds ++ "|" ++ canonical.data.raw ++ ")"

/-- Modelled from the spec: `OperatorClient.verifyReadResponse` resolves the
signer's key and checks the signature, yielding a boolean. -/
def verifyReadResponseModel (r : GetIdsPrefsResponse) : Except Exn Bool :=
  .ok (strBeginsWith "valid" r.raw)

/-- Modelled from the spec: `JSON.parse` of the create-seed body, documented
as `{ transaction_ids, data }`. -/
def parseSeedRequestModel (s : String) : Except Exn PostSeedRequest :=
  if strBeginsWith "seed:" s then
    .ok { transaction_ids := splitOnComma (strDropChars 5 s), data := { raw := "note" } }
  else .error .jsonParse

/-- The concrete bundle of spec-modelled externals used for closed runs. -/
def specExternals : ClientExternals :=
  { parseURL := parseURLModel
    jsonParseIdsPrefs := jsonParseIdsPrefsModel
    getPayload := getPayloadModel
    getReadRedirectUrl := OperatorClient.getReadRedirectUrl "operator.example"
    getDeleteRedirectUrl := OperatorClient.getDeleteRedirectUrl "operator.example"
    buildRestRequest := fun ctx p =>
      .ok { raw := "signed(" ++ ctx.origin.getD "undefined" ++ "," ++ p.raw ++ ")" }
    getRestUrl := { href := "https://operator.example/paf/v1/post-ids-prefs" }
    buildRedirectRequest := fun ctx p =>
      .ok { raw := "signedRedirect(" ++ ctx.returnUrl ++ ","
              ++ ctx.referer.getD "undefined" ++ "," ++ p.raw ++ ")" }
    getRedirectUrl := fun sm =>
      .ok { href := "https://operator.example/paf/v1/redirect/post-ids-prefs?message=" ++ sm.raw }
    fromDataToObject := fromDataToObjectModel
    verifyReadResponse := verifyReadResponseModel
    parseSeedRequest := parseSeedRequestModel
    buildSeed := fun t d =>
      .ok (OperatorClient.buildSeed t d 1642504380 "paf.example" signModel) }

/-! ## The registered endpoint pipelines (the ClientNode constructor)

Each `this.app.expressApp.<method>(path, stage, ...)` registration in the
constructor is mirrored as an ordered list of stages. -/

inductive Stage
  | cors
  | checkOrigin
  | checkReferer
  | checkReturnUrl
  | startSpan
  | handler
  | handleErrors
  | endSpan
deriving DecidableEq, Repr

inductive EndpointKind
  | json
  | redirect
deriving DecidableEq, Repr

structure Route where
  method : String
  endpoint : String
  kind : EndpointKind
  stages : List Stage
deriving DecidableEq, Repr

/-- The JSON endpoint stage list used by every JSON registration. -/
def jsonStages : List Stage :=
  [.cors, .checkOrigin, .startSpan, .handler, .handleErrors, .endSpan]

/-- The redirect endpoint stage list used by every redirect registration. -/
def redirectStages : List Stage :=
  [.cors, .checkReferer, .checkReturnUrl, .startSpan, .handler, .handleErrors, .endSpan]

/-- All registrations performed by the ClientNode constructor, in order. -/
def routes : List Route :=
  [ { method := "GET", endpoint := "jsonProxyEndpoints.read", kind := .json, stages := jsonStages }
  , { method := "POST", endpoint := "jsonProxyEndpoints.write", kind := .json, stages := jsonStages }
  , { method := "GET", endpoint := "jsonProxyEndpoints.verify3PC", kind := .json, stages := jsonStages }
  , { method := "GET", endpoint := "jsonProxyEndpoints.newId", kind := .json, stages := jsonStages }
  , { method := "OPTIONS", endpoint := "jsonProxyEndpoints.delete", kind := .json, stages := [.cors] }
  , { method := "DELETE", endpoint := "jsonProxyEndpoints.delete", kind := .json, stages := jsonStages }
  , { method := "GET", endpoint := "redirectProxyEndpoints.read", kind := .redirect, stages := redirectStages }
  , { method := "GET", endpoint := "redirectProxyEndpoints.write", kind := .redirect, stages := redirectStages }
  , { method := "GET", endpoint := "redirectProxyEndpoints.delete", kind := .redirect, stages := redirectStages }
  , { method := "POST", endpoint := "jsonProxyEndpoints.verifyRead", kind := .json, stages := jsonStages }
  , { method := "POST", endpoint := "jsonProxyEndpoints.signPrefs", kind := .json, stages := jsonStages }
  , { method := "POST", endpoint := "jsonProxyEndpoints.createSeed", kind := .json, stages := jsonStages } ]

/-- `a` occurs in `l` strictly before `b`. -/
def stagePrecedes (l : List Stage) (a b : Stage) : Bool :=
  l.contains a && l.indexOf a < l.indexOf b

/-- The trust-boundary stages required for a route's kind all occur before
its business handler (vacuous for registrations without a handler). -/
def trustGateBeforeHandler (r : Route) : Bool :=
  if r.stages.contains .handler then
    match r.kind with
    | .json => stagePrecedes r.stages .cors .handler && stagePrecedes r.stages .checkOrigin .handler
    | .redirect =>
      stagePrecedes r.stages .cors .handler && stagePrecedes r.stages .checkReferer .handler
        && stagePrecedes r.stages .checkReturnUrl .handler
  else true

/-- A variant of the spec-modelled externals whose REST request builder
fails, to exercise the catch branch of the JSON write handler. -/
def failingBuilderExternals : ClientExternals :=
  { specExternals with buildRestRequest := fun _ _ => .error .extFailure }

/-! ## Shared helper lemmas -/

theorem run_redirectRead_noReturnUrl (env : ClientExternals) (req : Request)
    (h : req.query.lookup proxyUriParamsReturnUrl = none) :
    runH (ClientNode.redirectReadIdsAndPrefs env req) =
      .thrown .headersSent { statusCode := 400, sent := some (400, Body.statusText 400) } := by
  simp only [runH, ClientNode.redirectReadIdsAndPrefs, getReturnUrl,
    getMandatoryQueryStringParam, h, hseq, hpure, sendStatus, Resp.init, tryCatchJS, liftE,
    sendText, setStatus, sendJson, hthrow]
  cases env.getReadRedirectUrl req none <;> rfl

theorem run_redirectDelete_noReturnUrl (env : ClientExternals) (req : Request)
    (h : req.query.lookup proxyUriParamsReturnUrl = none) :
    runH (ClientNode.redirectDeleteIdsAndPrefs env req) =
      .thrown .headersSent { statusCode := 400, sent := some (400, Body.statusText 400) } := by
  simp only [runH, ClientNode.redirectDeleteIdsAndPrefs, getReturnUrl,
    getMandatoryQueryStringParam, h, hseq, hpure, sendStatus, Resp.init, tryCatchJS, liftE,
    sendText, setStatus, sendJson, hthrow]
  cases env.getDeleteRedirectUrl req none <;> rfl

theorem client_redirectWrite_noReturnUrl (env : ClientExternals) (req : Request)
    (h : req.query.lookup proxyUriParamsReturnUrl = none) :
    clientResponse (ClientNode.redirectWriteIdsAndPrefs env req) =
      some (400, Body.statusText 400) := by
  simp only [clientResponse, runH, ClientNode.redirectWriteIdsAndPrefs, getReturnUrl,
    getMessageObject, getMandatoryQueryStringParam, h, hseq, hpure, sendStatus, Resp.init,
    tryCatchJS, liftE, sendText, setStatus, sendJson, hthrow]
  cases hm : req.query.lookup proxyUriParamsMessage with
  | none => rfl
  | some s =>
    simp only [hpure]
    by_cases hs : s = ""
    · simp only [hs, if_true]
      rfl
    · simp only [if_neg hs]
      cases env.jsonParseIdsPrefs s <;> rfl

/-! ## Claim theorems -/

/-- C3: every registered endpoint of the ClientNode places its
trust-boundary validation stages before the business handler: JSON
registrations run cors and checkOrigin first, redirect registrations run
cors, checkReferer and checkReturnUrl first, so no business handler is
reached without these stages having run. -/
theorem spec_c3_trust_gate_before_handler : routes.all trustGateBeforeHandler = true := by
  decide

/-- C9: three endpoint inputs make a handler raise an exception that
escapes its try/catch and is therefore never converted into the 400 JSON
error: a returnUrl that is not a parseable absolute URL (the URL
constructor runs outside the try block), a message that is not valid JSON
(the JSON parse runs outside the try block), and a verify-read body with
neither a response nor an error field (reading the error message runs
outside the try block).  In each case no response at all is written. -/
theorem spec_c9_exceptions_escape :
    (escapedExn (ClientNode.redirectReadIdsAndPrefs specExternals
        { query := [("returnUrl", "not-absolute")] }) = some .urlParse
      ∧ clientResponse (ClientNode.redirectReadIdsAndPrefs specExternals
          { query := [("returnUrl", "not-absolute")] }) = none)
  ∧ (escapedExn (ClientNode.redirectWriteIdsAndPrefs specExternals
        { query := [("returnUrl", "https://ok.example/"), ("message", "notjson")] }) =
          some .jsonParse
      ∧ clientResponse (ClientNode.redirectWriteIdsAndPrefs specExternals
          { query := [("returnUrl", "https://ok.example/"), ("message", "notjson")] }) = none)
  ∧ (escapedExn (ClientNode.verifyOperatorReadResponse specExternals
        { body := "neither" }) = some .typeError
      ∧ clientResponse (ClientNode.verifyOperatorReadResponse specExternals
          { body := "neither" }) = none) := by
  decide

/-- C1 counterexample: a redirect-read request whose returnUrl query
parameter is missing fails with status 400, but its body is the bare
status text sent by sendStatus, not a JSON object with the two fields
type and details — refuting the claim that every failing request gets the
two-field JSON error body. -/
theorem spec_c1_counterexample :
    clientResponse (ClientNode.redirectReadIdsAndPrefs specExternals { query := [] }) =
        some (400, Body.statusText 400)
      ∧ (Body.statusText 400).isErrorJson = false := by
  decide

/-- C1 (amended): failures caught inside a handler try/catch are rendered
as HTTP 400 with a JSON body of exactly the two fields type and details
(shown for the JSON write endpoint on both of its failure points), while a
redirect-endpoint request whose mandatory returnUrl query parameter is
missing is rejected with a bare 400 status-text body via sendStatus, not
the two-field JSON shape. -/
theorem spec_c1_error_shape (env : ClientExternals) (req1 req2 req3 : Request)
    (e1 : Exn) (up : IdsAndPreferences) (e2 : Exn)
    (h1 : env.getPayload req1 = .error e1)
    (h2a : env.getPayload req2 = .ok up)
    (h2b : env.buildRestRequest { origin := req2.originHeader } up = .error e2)
    (h3 : req3.query.lookup proxyUriParamsReturnUrl = none) :
    clientResponse (ClientNode.restWriteIdsAndPrefs env req1) =
        some (400, Body.errorJson { type := .clientUnknown, details := "" })
      ∧ clientResponse (ClientNode.restWriteIdsAndPrefs env req2) =
        some (400, Body.errorJson { type := .clientUnknown, details := "" })
      ∧ (Body.errorJson { type := .clientUnknown, details := "" }).isErrorJson = true
      ∧ clientResponse (ClientNode.redirectReadIdsAndPrefs env req3) =
        some (400, Body.statusText 400) := by
  refine ⟨?_, ?_, rfl, ?_⟩
  · simp only [clientResponse, runH, ClientNode.restWriteIdsAndPrefs, tryCatchJS, hseq,
      liftE, h1, setStatus, sendJson, Resp.init]
  · simp only [clientResponse, runH, ClientNode.restWriteIdsAndPrefs, tryCatchJS, hseq,
      liftE, h2a, h2b, setStatus, sendJson, Resp.init]
  · simp only [clientResponse, run_redirectRead_noReturnUrl env req3 h3]

/-- C1 witness: the amended C1 theorem applied at the spec-modelled
externals with a failing REST builder and three concrete requests. -/
theorem spec_c1_error_shape_witness :
    clientResponse (ClientNode.restWriteIdsAndPrefs failingBuilderExternals
        { body := "notjson" }) =
        some (400, Body.errorJson { type := .clientUnknown, details := "" })
      ∧ clientResponse (ClientNode.restWriteIdsAndPrefs failingBuilderExternals
        { body := "{p}" }) =
        some (400, Body.errorJson { type := .clientUnknown, details := "" })
      ∧ (Body.errorJson { type := .clientUnknown, details := "" }).isErrorJson = true
      ∧ clientResponse (ClientNode.redirectReadIdsAndPrefs failingBuilderExternals
        { query := [] }) = some (400, Body.statusText 400) :=
  spec_c1_error_shape failingBuilderExternals { body := "notjson" } { body := "{p}" }
    { query := [] } .jsonParse { raw := "{p}" } .extFailure (by rfl) (by rfl)
    (by rfl) (by rfl)

/-- C2 counterexample: a redirect-read request with the message query
parameter absent (and a valid returnUrl) is answered with status 200, not
400 — refuting the claim that a missing message parameter yields 400 on
every redirect endpoint.  The read and delete flows never consult message. -/
theorem spec_c2_counterexample :
    (({ query := [("returnUrl", "https://r.example/ret")] } : Request).query.lookup
        proxyUriParamsMessage = none)
  ∧ clientStatus (ClientNode.redirectReadIdsAndPrefs specExternals
        { query := [("returnUrl", "https://r.example/ret")] }) = some 200 := by
  decide

/-- C2 (amended): a redirect read, write or delete request whose returnUrl
query parameter is absent is answered with HTTP status 400, and a redirect
write request whose message parameter is absent (with a present, parseable
returnUrl) is answered with HTTP status 400; the read and delete redirect
endpoints do not consult the message parameter. -/
theorem spec_c2_missing_param_400 (env : ClientExternals) (req reqW : Request)
    (rs : String) (u : URL)
    (h1 : req.query.lookup proxyUriParamsReturnUrl = none)
    (h2a : reqW.query.lookup proxyUriParamsReturnUrl = some rs)
    (h2b : rs ≠ "")
    (h2c : env.parseURL rs = .ok u)
    (h2d : reqW.query.lookup proxyUriParamsMessage = none) :
    clientStatus (ClientNode.redirectReadIdsAndPrefs env req) = some 400
  ∧ clientStatus (ClientNode.redirectWriteIdsAndPrefs env req) = some 400
  ∧ clientStatus (ClientNode.redirectDeleteIdsAndPrefs env req) = some 400
  ∧ clientStatus (ClientNode.redirectWriteIdsAndPrefs env reqW) = some 400 := by
  refine ⟨?_, ?_, ?_, ?_⟩
  · simp only [clientStatus, clientResponse, run_redirectRead_noReturnUrl env req h1]
    rfl
  · simp only [clientStatus, client_redirectWrite_noReturnUrl env req h1]
    rfl
  · simp only [clientStatus, clientResponse, run_redirectDelete_noReturnUrl env req h1]
    rfl
  · simp only [clientStatus, clientResponse, runH, ClientNode.redirectWriteIdsAndPrefs,
      getReturnUrl, getMessageObject, getMandatoryQueryStringParam, h2a, h2c, h2d,
      if_neg h2b, hseq, hpure, sendStatus, Resp.init]
    rfl

/-- C2 witness: the amended C2 theorem applied at the spec-modelled
externals with two concrete requests. -/
theorem spec_c2_missing_param_400_witness :
    clientStatus (ClientNode.redirectReadIdsAndPrefs specExternals { query := [] }) = some 400
  ∧ clientStatus (ClientNode.redirectWriteIdsAndPrefs specExternals { query := [] }) = some 400
  ∧ clientStatus (ClientNode.redirectDeleteIdsAndPrefs specExternals { query := [] }) = some 400
  ∧ clientStatus (ClientNode.redirectWriteIdsAndPrefs specExternals
      { query := [("returnUrl", "https://r.example/ret")] }) = some 400 :=
  spec_c2_missing_param_400 specExternals { query := [] }
    { query := [("returnUrl", "https://r.example/ret")] } "https://r.example/ret"
    { href := "https://r.example/ret" } (by rfl) (by rfl) (by decide) (by rfl)
    (by rfl)

/-- C10 counterexample: on a redirect-read request with returnUrl missing,
after the 400 rejection the handler still proceeds into its try block and
attempts a second response send, which raises the headers-already-sent
error that escapes the handler — refuting the claim that no further
business work happens and no second response is attempted. -/
theorem spec_c10_counterexample :
    escapedExn (ClientNode.redirectReadIdsAndPrefs specExternals { query := [] }) =
      some Exn.headersSent := by
  decide

/-- C10 (amended): on a redirect read or delete request with returnUrl
missing, the handler issues the 400 and then still continues into its try
block, invoking the redirect-url builder and attempting a second response
send; the attempt raises a headers-already-sent error that escapes the
handler, and the client-visible response remains the bare 400. -/
theorem spec_c10_second_send_attempted (env : ClientExternals) (req : Request)
    (h : req.query.lookup proxyUriParamsReturnUrl = none) :
    escapedExn (ClientNode.redirectReadIdsAndPrefs env req) = some .headersSent
  ∧ clientResponse (ClientNode.redirectReadIdsAndPrefs env req) =
      some (400, Body.statusText 400)
  ∧ escapedExn (ClientNode.redirectDeleteIdsAndPrefs env req) = some .headersSent
  ∧ clientResponse (ClientNode.redirectDeleteIdsAndPrefs env req) =
      some (400, Body.statusText 400) := by
  refine ⟨?_, ?_, ?_, ?_⟩
  · simp only [escapedExn, run_redirectRead_noReturnUrl env req h]
  · simp only [clientResponse, run_redirectRead_noReturnUrl env req h]
  · simp only [escapedExn, run_redirectDelete_noReturnUrl env req h]
  · simp only [clientResponse, run_redirectDelete_noReturnUrl env req h]

/-- C10 witness: the amended C10 theorem applied at the spec-modelled
externals and a concrete request without a returnUrl parameter. -/
theorem spec_c10_second_send_attempted_witness :
    escapedExn (ClientNode.redirectReadIdsAndPrefs specExternals
        { query := [("message", "{m}")] }) = some .headersSent
  ∧ clientResponse (ClientNode.redirectReadIdsAndPrefs specExternals
        { query := [("message", "{m}")] }) = some (400, Body.statusText 400)
  ∧ escapedExn (ClientNode.redirectDeleteIdsAndPrefs specExternals
        { query := [("message", "{m}")] }) = some .headersSent
  ∧ clientResponse (ClientNode.redirectDeleteIdsAndPrefs specExternals
        { query := [("message", "{m}")] }) = some (400, Body.statusText 400) :=
  spec_c10_second_send_attempted specExternals { query := [("message", "{m}")] } (by decide)

/-- C4: a verify-operator-read-response request whose parsed body carries an
operator error envelope (no response field, an error field present) is
answered 400 with the error relayed verbatim from the operator envelope and
tagged with the operator error taxonomy type. -/
theorem spec_c4_operator_error_relayed (env : ClientExternals) (req : Request)
    (opErr : OperatorErrorPayload)
    (h1 : (env.fromDataToObject req.body).response = none)
    (h2 : (env.fromDataToObject req.body).error = some opErr) :
    clientResponse (ClientNode.verifyOperatorReadResponse env req) =
      some (400, Body.errorJson { type := .operatorUnknown, details := opErr.message }) := by
  simp only [clientResponse, runH, ClientNode.verifyOperatorReadResponse, h1, h2, hseq,
    setStatus, sendJson, Resp.init]

/-- C4 witness: the C4 theorem applied at the spec-modelled externals and a
concrete operator-error body. -/
theorem spec_c4_operator_error_relayed_witness :
    clientResponse (ClientNode.verifyOperatorReadResponse specExternals
        { body := "error:boom" }) =
      some (400, Body.errorJson { type := .operatorUnknown, details := "boom" }) :=
  spec_c4_operator_error_relayed specExternals { body := "error:boom" }
    { message := "boom" } (by rfl) (by rfl)

/-- C5: when the operator response fails signature verification the
ClientNode answers 400 with the distinct VERIFICATION_FAILED error type,
different from the generic error types used for other failures; when
verification succeeds the operator response is returned unchanged as the
JSON body. -/
theorem spec_c5_verification_failed_distinct (env : ClientExternals) (req1 req2 : Request)
    (r1 r2 : GetIdsPrefsResponse)
    (h1 : (env.fromDataToObject req1.body).response = some r1)
    (hv1 : env.verifyReadResponse r1 = .ok false)
    (h2 : (env.fromDataToObject req2.body).response = some r2)
    (hv2 : env.verifyReadResponse r2 = .ok true) :
    clientResponse (ClientNode.verifyOperatorReadResponse env req1) =
        some (400, Body.errorJson { type := .clientVerificationFailed, details := "" })
      ∧ ErrorType.clientVerificationFailed ≠ ErrorType.clientUnknown
      ∧ clientResponse (ClientNode.verifyOperatorReadResponse env req2) =
        some (200, Body.idsPrefsResponse r2) := by
  refine ⟨?_, by decide, ?_⟩
  · simp only [clientResponse, runH, ClientNode.verifyOperatorReadResponse, h1, hv1,
      tryCatchJS, hseq, liftE, setStatus, sendJson, Resp.init, if_true]
  · simp only [clientResponse, runH, ClientNode.verifyOperatorReadResponse, h2, hv2,
      tryCatchJS, hseq, liftE, setStatus, Resp.init]
    rw [if_neg (by decide)]
    rfl

/-- C5 witness: the C5 theorem applied at the spec-modelled externals with
one failing and one passing operator response. -/
theorem spec_c5_verification_failed_distinct_witness :
    clientResponse (ClientNode.verifyOperatorReadResponse specExternals
        { body := "response:bogus" }) =
        some (400, Body.errorJson { type := .clientVerificationFailed, details := "" })
      ∧ ErrorType.clientVerificationFailed ≠ ErrorType.clientUnknown
      ∧ clientResponse (ClientNode.verifyOperatorReadResponse specExternals
        { body := "response:validXYZ" }) =
        some (200, Body.idsPrefsResponse { raw := "validXYZ" }) :=
  spec_c5_verification_failed_distinct specExternals { body := "response:bogus" }
    { body := "response:validXYZ" } { raw := "bogus" } { raw := "validXYZ" }
    (by rfl) (by rfl) (by rfl) (by rfl)

/-- C6: a successful JSON write request signs the posted payload with the
REST context equal to the request Origin header, and the JSON response
contains exactly the signed payload and the operator-target URL returned by
getRestUrl. -/
theorem spec_c6_rest_write_origin_bound (env : ClientExternals) (req : Request)
    (up : IdsAndPreferences) (sm : SignedMsg)
    (h1 : env.getPayload req = .ok up)
    (h2 : env.buildRestRequest { origin := req.originHeader } up = .ok sm) :
    clientResponse (ClientNode.restWriteIdsAndPrefs env req) =
      some (200, Body.proxyPostResponse sm env.getRestUrl.toString) := by
  simp only [clientResponse, runH, ClientNode.restWriteIdsAndPrefs, tryCatchJS, hseq, liftE,
    h1, h2, sendJson, Resp.init]

/-- C6 witness: the C6 theorem applied at the spec-modelled externals and an
origin-carrying request. -/
theorem spec_c6_rest_write_origin_bound_witness :
    clientResponse (ClientNode.restWriteIdsAndPrefs specExternals
        { originHeader := some "https://good.example", body := "{id1}" }) =
      some (200, Body.proxyPostResponse { raw := "signed(https://good.example,{id1})" }
        "https://operator.example/paf/v1/post-ids-prefs") :=
  spec_c6_rest_write_origin_bound specExternals
    { originHeader := some "https://good.example", body := "{id1}" }
    { raw := "{id1}" } { raw := "signed(https://good.example,{id1})" } (by rfl) (by rfl)

/-- C7: a successful redirect write request signs the message payload with a
redirect context consisting exactly of the returnUrl query parameter (as a
string) and the request Referer header, and the response body is the URL
produced by getRedirectUrl over that signed message. -/
theorem spec_c7_redirect_write_context (env : ClientExternals) (req : Request)
    (rs : String) (u : URL) (ms : String) (input : IdsAndPreferences)
    (sm : SignedMsg) (url : URL)
    (h1 : req.query.lookup proxyUriParamsReturnUrl = some rs) (h2 : rs ≠ "")
    (h3 : env.parseURL rs = .ok u)
    (h4 : req.query.lookup proxyUriParamsMessage = some ms) (h5 : ms ≠ "")
    (h6 : env.jsonParseIdsPrefs ms = .ok input)
    (h7 : env.buildRedirectRequest { returnUrl := u.toString, referer := req.refererHeader }
            input = .ok sm)
    (h8 : env.getRedirectUrl sm = .ok url) :
    clientResponse (ClientNode.redirectWriteIdsAndPrefs env req) =
      some (200, Body.text url.toString) := by
  simp only [clientResponse, runH, ClientNode.redirectWriteIdsAndPrefs, getReturnUrl,
    getMessageObject, getMandatoryQueryStringParam, h1, if_neg h2, h3, h4, if_neg h5, h6,
    tryCatchJS, hseq, hpure, liftE, h7, h8, sendText, Resp.init]

/-- C7 witness: the C7 theorem applied at the spec-modelled externals and a
complete redirect write request. -/
theorem spec_c7_redirect_write_context_witness :
    clientResponse (ClientNode.redirectWriteIdsAndPrefs specExternals
        { query := [("returnUrl", "https://r.example/ret"), ("message", "{x}")],
          refererHeader := some "https://www.vendor.example/page" }) =
      some (200, Body.text
        "https://operator.example/paf/v1/redirect/post-ids-prefs?message=signedRedirect(https://r.example/ret,https://www.vendor.example/page,{x})") :=
  spec_c7_redirect_write_context specExternals
    { query := [("returnUrl", "https://r.example/ret"), ("message", "{x}")],
      refererHeader := some "https://www.vendor.example/page" }
    "https://r.example/ret" { href := "https://r.example/ret" } "{x}" { raw := "{x}" }
    { raw := "signedRedirect(https://r.example/ret,https://www.vendor.example/page,{x})" }
    { href := "https://operator.example/paf/v1/redirect/post-ids-prefs?message=signedRedirect(https://r.example/ret,https://www.vendor.example/page,{x})" }
    (by rfl) (by decide) (by rfl) (by rfl) (by decide) (by rfl) (by rfl) (by rfl)

/-- C8: a successful create-seed request answers with exactly the Seed built
by buildSeed over the posted transaction_ids and data, and that Seed keeps
the posted transaction_ids in the same order. -/
theorem spec_c8_create_seed (env : ClientExternals) (req : Request)
    (pr : PostSeedRequest) (now : Nat) (host : String)
    (sign : OperatorClient.SeedCanonical → String)
    (h1 : env.parseSeedRequest req.body = .ok pr)
    (h2 : env.buildSeed = fun t d => .ok (OperatorClient.buildSeed t d now host sign)) :
    clientResponse (ClientNode.createSeed env req) =
        some (200,
          Body.seedJson (OperatorClient.buildSeed pr.transaction_ids pr.data now host sign))
      ∧ (OperatorClient.buildSeed pr.transaction_ids pr.data now host sign).transactionIds =
        pr.transaction_ids := by
  refine ⟨?_, rfl⟩
  simp only [clientResponse, runH, ClientNode.createSeed, tryCatchJS, hseq, liftE, h1, h2,
    sendJson, Resp.init]

/-- C8 witness: the C8 theorem applied at the spec-modelled externals and a
two-transaction seed request. -/
theorem spec_c8_create_seed_witness :
    clientResponse (ClientNode.createSeed specExternals { body := "seed:t1,t2" }) =
        some (200, Body.seedJson
          { transactionIds := ["t1", "t2"], data := { raw := "note" },
            timestamp := 1642504380, signerHost := "paf.example",
            signature := "sig(t1,t2|note)" })
      ∧ (OperatorClient.buildSeed ["t1", "t2"] { raw := "note" } 1642504380 "paf.example"
          signModel).transactionIds = ["t1", "t2"] :=
  spec_c8_create_seed specExternals { body := "seed:t1,t2" }
    { transaction_ids := ["t1", "t2"], data := { raw := "note" } } 1642504380 "paf.example"
    signModel (by rfl) (by rfl)
